import Mathlib

/-
Shallow embedding of dogpile.core (final revision, dogpile/core/dogpile.py,
dogpile/nameregistry.py) for checking the natural-language specification.

The Lock primitive is embedded as pure functions over an environment that
supplies the outcomes of the caller-provided callbacks (the probe
value_and_created_fn, indexed by call number, and the creator) together with
the state of the creation mutex.  Executions additionally return the list of
observable events (mutex operations, callback invocations) so that claims
about mutex discipline and callback counts can be stated.
-/

set_option autoImplicit false

namespace DogpileCore

/-- A Python exception as seen by the core: the control-flow signal
NeedRegenerationException, the builtin KeyError (caught by the inner
handler of NameRegistry._sync_get), a plain Exception carrying a message,
or any other exception identified by a code. -/
inductive PyExc where
  | needRegeneration
  | keyError
  | exception (msg : String)
  | other (code : Nat)
deriving DecidableEq, Repr

/-- Observable events of an execution: creation-mutex operations, probe and
creator invocations, the SyncReader read-lock operations, and the
NameRegistry mutex operations. -/
inductive Event where
  | probeCall
  | creatorCall
  | tryAcquire (ok : Bool)
  | blockAcquire
  | release
  | acquireReadLock
  | releaseReadLock
  | regAcquire
  | regRelease
deriving DecidableEq, BEq, Repr

/-- Environment of one Lock entry: the probe outcome for the n-th probe call
in this entry, the creator outcome, whether a non-blocking mutex acquire
would succeed, the current time, and the expiretime of the Lock (none encodes
Python None, i.e. never expires). -/
structure Env (α : Type) where
  probe : Nat → Except PyExc (α × Rat)
  creator : Except PyExc (α × Rat)
  tryAcquireOk : Bool
  now : Rat
  expiretime : Option Rat

/-- Lock._has_value: the creation function has proceeded at least once. -/
def has_value (createdtime : Rat) : Bool :=
  createdtime > 0

/-- Lock._is_expired: no value is available, or the expiration time is
reached (expiretime is not None and now - createdtime > expiretime). -/
def is_expired {α : Type} (e : Env α) (createdtime : Rat) : Bool :=
  !has_value createdtime ||
    (match e.expiretime with
     | some ex => decide (e.now - createdtime > ex)
     | none => false)

/-- Result of Lock._enter_create: the NOT_REGENERATED sentinel, a
(value, createdtime) pair, or a propagating exception. -/
inductive CreateResult (α : Type) where
  | notRegenerated
  | generated (value : α) (createdtime : Rat)
  | raised (exc : PyExc)
deriving Repr

/-- Outcome of calling the creator: its pair on success, otherwise the
exception it raised. -/
def creatorResult {α : Type} (e : Env α) : CreateResult α :=
  match e.creator with
  | .ok (v, t) => .generated v t
  | .error exc => .raised exc

/-- The critical section of Lock._enter_create (the try/finally body entered
with the mutex held, starting at probe call number k): re-probe; a
NeedRegenerationException from the probe is swallowed; a fresh re-probe
result is returned as is; otherwise the creator runs and its result is
returned; the mutex release of the finally block is the last event on every
path, and any other exception propagates. -/
def createCritical {α : Type} (e : Env α) (k : Nat) :
    CreateResult α × List Event × Nat :=
  match e.probe k with
  | .ok (value, createdtime) =>
      if !is_expired e createdtime then
        (.generated value createdtime, [.probeCall, .release], k + 1)
      else
        (creatorResult e, [.probeCall, .creatorCall, .release], k + 1)
  | .error .needRegeneration =>
      (creatorResult e, [.probeCall, .creatorCall, .release], k + 1)
  | .error exc =>
      (.raised exc, [.probeCall, .release], k + 1)

/-- Lock._enter_create: fresh value, return NOT_REGENERATED; stale value
present, non-blocking acquire and on failure return NOT_REGENERATED; no
value, blocking acquire; in the two acquired cases run the critical
section. -/
def enter_create {α : Type} (e : Env α) (k : Nat) (createdtime : Rat) :
    CreateResult α × List Event × Nat :=
  if !is_expired e createdtime then
    (.notRegenerated, [], k)
  else if has_value createdtime then
    if !e.tryAcquireOk then
      (.notRegenerated, [.tryAcquire false], k)
    else
      ((createCritical e k).1, .tryAcquire true :: (createCritical e k).2.1,
        (createCritical e k).2.2)
  else
    ((createCritical e k).1, .blockAcquire :: (createCritical e k).2.1,
      (createCritical e k).2.2)

/-- The message of the hard error raised by Lock._enter when the fallback
probe raises NeedRegenerationException again. -/
def doubleRegenMsg : String :=
  "Generation function should have just been called by a concurrent thread."

/-- The tail of Lock._enter after _enter_create has returned (value is none
when the initial probe raised NeedRegenerationException, i.e. the local
variable holds the NOT_REGENERATED sentinel): an exception from
_enter_create propagates; a generated pair is returned; on NOT_REGENERATED
with a sentinel value the probe is re-called, and a second
NeedRegenerationException becomes the hard error. -/
def enterTail {α : Type} (e : Env α) (k : Nat) (value : Option α)
    (generated : CreateResult α) : Except PyExc α × List Event × Nat :=
  match generated with
  | .raised exc => (.error exc, [], k)
  | .generated v _ => (.ok v, [], k)
  | .notRegenerated =>
      match value with
      | some v => (.ok v, [], k)
      | none =>
          match e.probe k with
          | .ok (v, _) => (.ok v, [.probeCall], k + 1)
          | .error .needRegeneration =>
              (.error (.exception doubleRegenMsg), [.probeCall], k + 1)
          | .error exc => (.error exc, [.probeCall], k + 1)

/-- The body of Lock._enter after the initial probe has been resolved into
the local variables value (none for the NOT_REGENERATED sentinel) and
createdtime: _enter_create starting at probe call number 1, then the tail
dispatch; the initial probe call is the first event of the trace. -/
def enterFrom {α : Type} (e : Env α) (value : Option α) (t : Rat) :
    Except PyExc α × List Event :=
  ((enterTail e (enter_create e 1 t).2.2 value (enter_create e 1 t).1).1,
    .probeCall :: ((enter_create e 1 t).2.1 ++
      (enterTail e (enter_create e 1 t).2.2 value (enter_create e 1 t).1).2.1))

/-- Lock._enter: initial probe (NeedRegenerationException maps to the
sentinel with createdtime -1, any other exception propagates), then
_enter_create, then the tail dispatch. -/
def enter {α : Type} (e : Env α) : Except PyExc α × List Event :=
  match e.probe 0 with
  | .ok (v, t) => enterFrom e (some v) t
  | .error .needRegeneration => enterFrom e none (-1)
  | .error exc => (.error exc, [.probeCall])

/-- The environment synthesized by Dogpile.acquire when neither value_fn nor
value_and_created_fn is supplied: the probe returns (None, self.createdtime)
on every call, and creator_wrapper returns (creator(), time.time()).  In
this source revision creator_wrapper performs no assignment to
self.createdtime.  The value type is Unit since the synthesized probe
returns None; the mutex is free in a sequential run, so a non-blocking
acquire would succeed. -/
def dogpileEnv (expiretime : Option Rat) (tNow : Rat) (ct : Rat) : Env Unit where
  probe := fun _ => .ok ((), ct)
  creator := .ok ((), tNow)
  tryAcquireOk := true
  now := tNow
  expiretime := expiretime

/-- One sequential acquisition through Dogpile.acquire(creator) with no
value functions, from a Dogpile whose createdtime field is ct: the entry
outcome together with the value of the createdtime field afterwards, which
is unchanged because creator_wrapper does not write it. -/
def dogpileAcquireOnce (expiretime : Option Rat) (tNow : Rat) (ct : Rat) :
    (Except PyExc Unit × List Event) × Rat :=
  (enter (dogpileEnv expiretime tNow ct), ct)

/-- Two back-to-back sequential acquisitions of a Dogpile constructed with
init False, so createdtime starts at -1: the concatenated event traces of
the two entries. -/
def dogpileTwoAcquires (expiretime : Option Rat) (t1 t2 : Rat) : List Event :=
  ((dogpileAcquireOnce expiretime t1 (-1)).1).2 ++
    ((dogpileAcquireOnce expiretime t2
        ((dogpileAcquireOnce expiretime t1 (-1)).2)).1).2

/-- Scope entry of the acquisition returned by SyncReaderDogpile.acquire:
acquire is inherited unchanged from Dogpile, so the scope is the plain Lock
object, whose entry is Lock._enter; the Lock holds no reference to the
dogpile, and SyncReaderDogpile._enter and _exit are never invoked by it. -/
def syncReaderScopeEnter {α : Type} (e : Env α) : Except PyExc α × List Event :=
  enter e

/-- Scope exit of the acquisition returned by SyncReaderDogpile.acquire:
Lock.__exit__ does nothing. -/
def syncReaderScopeExit : List Event := []

/-- Lookup of an identifier in the registry mapping. -/
def regLookup {κ α : Type} [DecidableEq κ] : List (κ × α) → κ → Option α
  | [], _ => none
  | (key, v) :: rest, ident =>
      if key = ident then some v else regLookup rest ident

/-- Outcome of a NameRegistry operation: the returned object or propagated
exception, the mapping afterwards, the number of creator invocations, and
the event trace. -/
structure RegResult (κ α : Type) where
  result : Except PyExc α
  state : List (κ × α)
  creatorCalls : Nat
  events : List Event
deriving Repr

/-- NameRegistry._sync_get: under the registry mutex, re-check membership;
on a hit return the stored object; on a miss invoke the creator with the
identifier and the extra arguments, and insert the result only after the
creator returns successfully.  The inner try wraps the membership check,
the dictionary access and this first creator call; its except KeyError
handler re-invokes the creator and likewise inserts and returns a
successful retry, so a KeyError raised by the first creator invocation
does not propagate while any other exception, and any exception of the
retry, does.  The creator is indexed by the invocation number within the
operation, since a stateful creator may behave differently on the retry;
in a sequential run without garbage collection the dictionary access after
a positive membership check cannot raise, so the first creator invocation
is the only reachable KeyError source inside the try.  The mutex release
of the finally block is the last event on every path. -/
def sync_get {κ α β : Type} [DecidableEq κ]
    (creator : Nat → κ → β → Except PyExc α)
    (st : List (κ × α)) (ident : κ) (args : β) : RegResult κ α :=
  match regLookup st ident with
  | some v => ⟨.ok v, st, 0, [.regAcquire, .regRelease]⟩
  | none =>
      match creator 0 ident args with
      | .ok v =>
          ⟨.ok v, st ++ [(ident, v)], 1, [.regAcquire, .creatorCall, .regRelease]⟩
      | .error .keyError =>
          match creator 1 ident args with
          | .ok v =>
              ⟨.ok v, st ++ [(ident, v)], 2,
                [.regAcquire, .creatorCall, .creatorCall, .regRelease]⟩
          | .error exc =>
              ⟨.error exc, st, 2,
                [.regAcquire, .creatorCall, .creatorCall, .regRelease]⟩
      | .error exc =>
          ⟨.error exc, st, 1, [.regAcquire, .creatorCall, .regRelease]⟩

/-- NameRegistry.get: unlocked fast path returning a present entry, slow
path _sync_get otherwise. -/
def regGet {κ α β : Type} [DecidableEq κ]
    (creator : Nat → κ → β → Except PyExc α)
    (st : List (κ × α)) (ident : κ) (args : β) : RegResult κ α :=
  match regLookup st ident with
  | some v => ⟨.ok v, st, 0, []⟩
  | none => sync_get creator st ident args

/-- Concrete environment: a stale value (created at 5, now 10, expiretime 2)
while the creation mutex is held elsewhere. -/
def envStale : Env Nat where
  probe := fun _ => .ok (7, 5)
  creator := .ok (9, 10)
  tryAcquireOk := false
  now := 10
  expiretime := some 2

/-- Concrete environment: the initial probe raises
NeedRegenerationException, the re-probe under the mutex finds a fresh value
created at 9. -/
def envCold : Env Nat where
  probe := fun n => if n = 0 then .error .needRegeneration else .ok (7, 9)
  creator := .ok (9, 10)
  tryAcquireOk := true
  now := 10
  expiretime := some 2

/-- Concrete environment: a fresh value exactly at the expiry boundary
(created at 8, now 10, expiretime 2). -/
def envFresh : Env Nat where
  probe := fun _ => .ok (7, 8)
  creator := .ok (9, 10)
  tryAcquireOk := true
  now := 10
  expiretime := some 2

/-- Concrete environment: the probe succeeds once with a stale value and
afterwards raises a non-regeneration exception; the creator also fails. -/
def envErr : Env Nat where
  probe := fun n => if n = 0 then .ok (3, 5) else .error (.other 42)
  creator := .error (.other 7)
  tryAcquireOk := true
  now := 10
  expiretime := some 2

/-- Concrete registry creator that succeeds on every invocation, combining
identifier and extra argument. -/
def regCreatorOk : Nat → Nat → Nat → Except PyExc Nat :=
  fun _ ident args => .ok (ident * 100 + args)

/-- Concrete registry creator that raises a non-KeyError exception on every
invocation. -/
def regCreatorFail : Nat → Nat → Nat → Except PyExc Nat :=
  fun _ _ _ => .error (.other 3)

/-- Concrete registry creator that raises KeyError on its first invocation
and succeeds on the retry. -/
def regCreatorRetry : Nat → Nat → Nat → Except PyExc Nat :=
  fun n _ _ => if n = 0 then .error .keyError else .ok 77

theorem createCritical_events {α : Type} (e : Env α) (k : Nat) :
    (createCritical e k).2.1 = [.probeCall, .release] ∨
    (createCritical e k).2.1 = [.probeCall, .creatorCall, .release] := by
  unfold createCritical
  cases hp : e.probe k with
  | ok vt =>
    obtain ⟨v, t⟩ := vt
    cases hie : is_expired e t <;> simp [hie]
  | error exc =>
    cases exc <;> simp

theorem enter_create_events {α : Type} (e : Env α) (k : Nat) (t : Rat) :
    (enter_create e k t).2.1 = [] ∨
    (enter_create e k t).2.1 = [.tryAcquire false] ∨
    (enter_create e k t).2.1 = .tryAcquire true :: (createCritical e k).2.1 ∨
    (enter_create e k t).2.1 = .blockAcquire :: (createCritical e k).2.1 := by
  unfold enter_create
  cases hie : is_expired e t <;> cases hhv : has_value t <;>
    cases hm : e.tryAcquireOk <;> simp [hie, hhv, hm]

theorem enterTail_events {α : Type} (e : Env α) (k : Nat) (value : Option α)
    (g : CreateResult α) :
    (enterTail e k value g).2.1 = [] ∨
    (enterTail e k value g).2.1 = [.probeCall] := by
  unfold enterTail
  cases g with
  | raised exc => simp
  | generated v t => simp
  | notRegenerated =>
    cases value with
    | some v => simp
    | none =>
      cases hp : e.probe k with
      | ok vt => obtain ⟨v, t⟩ := vt; simp
      | error exc => cases exc <;> simp

theorem enterFrom_no_readlock {α : Type} (e : Env α) (value : Option α)
    (t : Rat) :
    Event.acquireReadLock ∉ (enterFrom e value t).2 ∧
    Event.releaseReadLock ∉ (enterFrom e value t).2 := by
  rcases createCritical_events e 1 with h3 | h3 <;>
    rcases enter_create_events e 1 t with h1 | h1 | h1 | h1 <;>
    rcases enterTail_events e (enter_create e 1 t).2.2 value
      (enter_create e 1 t).1 with h2 | h2 <;>
    simp [enterFrom, h1, h2, h3]

theorem enter_no_readlock {α : Type} (e : Env α) :
    Event.acquireReadLock ∉ (enter e).2 ∧
    Event.releaseReadLock ∉ (enter e).2 := by
  unfold enter
  cases hp : e.probe 0 with
  | ok vt =>
    obtain ⟨v, t⟩ := vt
    exact enterFrom_no_readlock e (some v) t
  | error exc =>
    cases exc with
    | needRegeneration => exact enterFrom_no_readlock e none (-1)
    | keyError => simp
    | exception msg => simp
    | other code => simp

/-- C1: the claim fails on this source revision: creator_wrapper returns
(creator(), time.time()) without assigning self.createdtime, so with
expiretime 2 two back-to-back sequential acquisitions both invoke the
creator, and the createdtime field is still -1 after the first
acquisition (the claim, and the test_single_create test of the repository,
expect a single creator invocation). -/
theorem dogpile_second_acquire_reruns_creator :
    (dogpileTwoAcquires (some 2) 100 100).count Event.creatorCall = 2 ∧
    (dogpileAcquireOnce (some 2) 100 (-1)).2 = -1 := by
  refine ⟨?_, rfl⟩
  rfl

/-- C2: the claim fails on this source revision: the scoped acquisition
returned by SyncReaderDogpile.acquire is the plain Lock built by the
inherited Dogpile.acquire, whose entry never performs a read-lock
operation and whose exit does nothing; SyncReaderDogpile._enter and _exit
are never invoked by the Lock. -/
theorem syncreader_scope_never_touches_readlock {α : Type} (e : Env α) :
    Event.acquireReadLock ∉ (syncReaderScopeEnter e).2 ∧
    Event.releaseReadLock ∉ (syncReaderScopeEnter e).2 ∧
    syncReaderScopeExit = [] :=
  ⟨(enter_no_readlock e).1, (enter_no_readlock e).2, rfl⟩

/-- C3: when the probe returns a stale value (t positive, expiretime set and
now - t beyond it) and the non-blocking acquire of the creation mutex
fails, _enter returns the stale value; the trace shows the only events are
the initial probe call and the failed non-blocking acquire, so the creator
is not invoked and no blocking acquire is performed. -/
theorem stale_value_served_without_blocking {α : Type} (e : Env α) (v : α)
    (t : Rat) (hp : e.probe 0 = .ok (v, t)) (hv : t > 0)
    (hexp : ∃ ex, e.expiretime = some ex ∧ e.now - t > ex)
    (hm : e.tryAcquireOk = false) :
    enter e = (.ok v, [.probeCall, .tryAcquire false]) := by
  obtain ⟨ex, hex, hgt⟩ := hexp
  have hhv : has_value t = true := by
    simp [has_value]
    exact hv
  have hie : is_expired e t = true := by
    simp [is_expired, hex, hhv]
    exact hgt
  have hec : enter_create e 1 t = (.notRegenerated, [.tryAcquire false], 1) := by
    simp [enter_create, hie, hhv, hm]
  unfold enter
  rw [hp]
  simp [enterFrom, hec, enterTail]

/-- Witness for the stale-serving theorem at the concrete stale
environment. -/
theorem stale_value_served_without_blocking_witness :
    enter envStale = (.ok 7, [.probeCall, .tryAcquire false]) :=
  stale_value_served_without_blocking envStale 7 5 rfl (by norm_num)
    ⟨2, rfl, by norm_num [envStale]⟩ rfl

theorem creatorResult_ne_notRegenerated {α : Type} (e : Env α) :
    creatorResult e ≠ .notRegenerated := by
  unfold creatorResult
  cases hc : e.creator with
  | ok vt => obtain ⟨v, t⟩ := vt; simp
  | error exc => simp

theorem createCritical_ne_notRegenerated {α : Type} (e : Env α) (k : Nat) :
    (createCritical e k).1 ≠ .notRegenerated := by
  unfold createCritical
  cases hp : e.probe k with
  | ok vt =>
    obtain ⟨v, t⟩ := vt
    cases hie : is_expired e t <;> simp [hie]
    exact creatorResult_ne_notRegenerated e
  | error exc =>
    cases exc <;> simp
    · exact creatorResult_ne_notRegenerated e

theorem createCritical_probe_count {α : Type} (e : Env α) (k : Nat) :
    (createCritical e k).2.1.count Event.probeCall = 1 := by
  rcases createCritical_events e k with h | h <;> rw [h] <;> rfl

theorem createCritical_release_count {α : Type} (e : Env α) (k : Nat) :
    (createCritical e k).2.1.count Event.release = 1 := by
  rcases createCritical_events e k with h | h <;> rw [h] <;> rfl

theorem enterTail_trace_of_ne {α : Type} (e : Env α) (k : Nat)
    (value : Option α) (g : CreateResult α) (hg : g ≠ .notRegenerated) :
    (enterTail e k value g).2.1 = [] := by
  cases g with
  | raised exc => simp [enterTail]
  | generated v t => simp [enterTail]
  | notRegenerated => exact absurd rfl hg

/-- C4: when the probe reports no value (createdtime at most 0, including
the -1 that a NeedRegenerationException maps to), _enter_create performs a
blocking acquire of the creation mutex and re-invokes the probe while
holding it: a fresh re-probe pair is returned without invoking the creator,
otherwise the creator runs and its outcome is returned; on every path the
release of the mutex is the final event before returning. -/
theorem cold_start_blocking_double_check {α : Type} (e : Env α) (k : Nat)
    (t : Rat) (ht : t ≤ 0) :
    (∀ v t2, e.probe k = .ok (v, t2) → is_expired e t2 = false →
        enter_create e k t =
          (.generated v t2, [.blockAcquire, .probeCall, .release], k + 1)) ∧
    (∀ v t2, e.probe k = .ok (v, t2) → is_expired e t2 = true →
        enter_create e k t =
          (creatorResult e,
            [.blockAcquire, .probeCall, .creatorCall, .release], k + 1)) ∧
    (e.probe k = .error .needRegeneration →
        enter_create e k t =
          (creatorResult e,
            [.blockAcquire, .probeCall, .creatorCall, .release], k + 1)) := by
  have hhv : has_value t = false := by
    simp [has_value]
    exact ht
  have hie : is_expired e t = true := by
    simp [is_expired, hhv]
  refine ⟨?_, ?_, ?_⟩
  · intro v t2 hp hfresh
    simp [enter_create, hie, hhv, createCritical, hp, hfresh]
  · intro v t2 hp hstale
    simp [enter_create, hie, hhv, createCritical, hp, hstale]
  · intro hp
    simp [enter_create, hie, hhv, createCritical, hp]

/-- Witness for the cold-start theorem: in the concrete cold environment,
_enter_create of -1 blocks, re-probes, finds the fresh pair created at 9
and returns it without running the creator. -/
theorem cold_start_blocking_double_check_witness :
    (-1 : Rat) ≤ 0 ∧
    enter_create envCold 1 (-1) =
      (.generated 7 9, [.blockAcquire, .probeCall, .release], 2) := by
  refine ⟨by norm_num, ?_⟩
  exact (cold_start_blocking_double_check envCold 1 (-1) (by norm_num)).1 7 9
    rfl (by simp [is_expired, has_value, envCold]; norm_num)

/-- C5: _has_value holds exactly when the timestamp is positive; freshness
(is_expired false) holds exactly when the timestamp is positive and either
no expiretime is set or now minus the timestamp is at most expiretime, the
boundary counting as fresh; for a fresh timestamp _enter_create returns
NOT_REGENERATED without touching the mutex, and _enter returns the probed
value with the initial probe call as its only event, so the creator is not
invoked. -/
theorem freshness_predicates_and_fresh_path {α : Type} (e : Env α) (k : Nat)
    (t : Rat) :
    (has_value t = true ↔ t > 0) ∧
    (is_expired e t = false ↔
      (t > 0 ∧ (e.expiretime = none ∨
        ∃ ex, e.expiretime = some ex ∧ e.now - t ≤ ex))) ∧
    (is_expired e t = false → enter_create e k t = (.notRegenerated, [], k)) ∧
    (∀ v, e.probe 0 = .ok (v, t) → is_expired e t = false →
      enter e = (.ok v, [.probeCall])) := by
  refine ⟨by simp [has_value], ?_, ?_, ?_⟩
  · cases hext : e.expiretime with
    | none => simp [is_expired, has_value, hext]
    | some ex0 =>
      simp [is_expired, has_value, hext, not_lt]
  · intro hfresh
    simp [enter_create, hfresh]
  · intro v hp hfresh
    have hec : enter_create e 1 t = (.notRegenerated, [], 1) := by
      simp [enter_create, hfresh]
    unfold enter
    rw [hp]
    simp [enterFrom, hec, enterTail]

/-- Witness for the freshness theorem at the boundary: created at 8,
now 10, expiretime 2, so now - t equals expiretime and the value is served
fresh with no creation. -/
theorem freshness_predicates_and_fresh_path_witness :
    enter envFresh = (.ok 7, [.probeCall]) :=
  (freshness_predicates_and_fresh_path envFresh 1 8).2.2.2 7 rfl
    (by simp [is_expired, has_value, envFresh]; norm_num)

/-- C6: once the critical section of _enter_create is entered (the
timestamp is expired and, when a value is present, the non-blocking
acquire succeeds), the creation mutex is released exactly once on every
exit path; an exception other than NeedRegenerationException from the
under-lock probe propagates unchanged, and any creator exception
propagates unchanged. -/
theorem critical_section_release_and_propagation {α : Type} (e : Env α)
    (k : Nat) (t : Rat) (hexp : is_expired e t = true)
    (hacq : has_value t = true → e.tryAcquireOk = true) :
    ((enter_create e k t).2.1.count Event.release = 1) ∧
    (∀ exc, e.probe k = .error exc → exc ≠ .needRegeneration →
        (enter_create e k t).1 = .raised exc) ∧
    (∀ exc, e.creator = .error exc →
        (e.probe k = .error .needRegeneration ∨
          (∃ v t2, e.probe k = .ok (v, t2) ∧ is_expired e t2 = true)) →
        (enter_create e k t).1 = .raised exc) := by
  have hshape : enter_create e k t =
      ((createCritical e k).1,
        (if has_value t then Event.tryAcquire true else Event.blockAcquire)
          :: (createCritical e k).2.1,
        (createCritical e k).2.2) := by
    cases hhv : has_value t with
    | true => simp [enter_create, hexp, hhv, hacq hhv]
    | false => simp [enter_create, hexp, hhv]
  refine ⟨?_, ?_, ?_⟩
  · rw [hshape]
    cases hhv : has_value t <;>
      simp [List.count_cons, createCritical_release_count e k] <;> rfl
  · intro exc hp hne
    rw [hshape]
    cases exc with
    | needRegeneration => exact absurd rfl hne
    | keyError => simp [createCritical, hp]
    | exception msg => simp [createCritical, hp]
    | other code => simp [createCritical, hp]
  · intro exc hc hcase
    rw [hshape]
    rcases hcase with hp | ⟨v, t2, hp, hstale⟩
    · simp [createCritical, hp, creatorResult, hc]
    · simp [createCritical, hp, hstale, creatorResult, hc]

/-- Witness for the release-and-propagation theorem: in the concrete
error environment the under-lock probe raises a non-regeneration
exception, which is the result, and the trace still releases the mutex
exactly once. -/
theorem critical_section_release_and_propagation_witness :
    (enter_create envErr 1 5).2.1.count Event.release = 1 ∧
    (enter_create envErr 1 5).1 = .raised (.other 42) := by
  have h := critical_section_release_and_propagation envErr 1 5
    (by simp [is_expired, has_value, envErr]; norm_num) (fun _ => rfl)
  exact ⟨h.1, h.2.1 (.other 42) rfl (by simp)⟩

/-- C7: in the tail of _enter, when the initial probe raised
NeedRegenerationException (so the local value holds the NOT_REGENERATED
sentinel) and _enter_create returned NOT_REGENERATED, a second
NeedRegenerationException from the follow-up probe call is turned into the
hard error whose message states the generation function should have just
been called by a concurrent thread, instead of returning a value. -/
theorem double_regeneration_hard_error {α : Type} (e : Env α) (k : Nat)
    (h : e.probe k = .error .needRegeneration) :
    enterTail e k none .notRegenerated =
      (.error (.exception doubleRegenMsg), [.probeCall], k + 1) := by
  simp [enterTail, h]

/-- Witness for the double-regeneration hard error at the concrete cold
environment, whose probe raises NeedRegenerationException on call 0. -/
theorem double_regeneration_hard_error_witness :
    enterTail envCold 0 none .notRegenerated =
      (.error (.exception doubleRegenMsg), [.probeCall], 1) :=
  double_regeneration_hard_error envCold 0 rfl

theorem regLookup_append_of_none {κ α : Type} [DecidableEq κ]
    (st : List (κ × α)) (ident : κ) (v : α)
    (h : regLookup st ident = none) :
    regLookup (st ++ [(ident, v)]) ident = some v := by
  induction st with
  | nil => simp [regLookup]
  | cons hd tl ih =>
    obtain ⟨key, w⟩ := hd
    by_cases hk : key = ident
    · simp [regLookup, hk] at h
    · simp only [regLookup, hk, if_false, List.cons_append] at h ⊢
      exact ih h

theorem regGet_ok_state {κ α β : Type} [DecidableEq κ]
    (creator : Nat → κ → β → Except PyExc α) (st : List (κ × α)) (ident : κ)
    (args : β) (v : α)
    (hv : (regGet creator st ident args).result = .ok v) :
    regLookup (regGet creator st ident args).state ident = some v := by
  cases hl : regLookup st ident with
  | some w =>
    simp [regGet, hl] at hv
    simp [regGet, hl, hv]
  | none =>
    cases hc0 : creator 0 ident args with
    | ok v0 =>
      simp [regGet, sync_get, hl, hc0] at hv
      simp [regGet, sync_get, hl, hc0, hv,
        regLookup_append_of_none st ident v hl]
    | error exc =>
      cases exc with
      | keyError =>
        cases hc1 : creator 1 ident args with
        | ok v1 =>
          simp [regGet, sync_get, hl, hc0, hc1] at hv
          simp [regGet, sync_get, hl, hc0, hc1, hv,
            regLookup_append_of_none st ident v hl]
        | error exc2 =>
          simp [regGet, sync_get, hl, hc0, hc1] at hv
      | needRegeneration => simp [regGet, sync_get, hl, hc0] at hv
      | exception msg => simp [regGet, sync_get, hl, hc0] at hv
      | other code => simp [regGet, sync_get, hl, hc0] at hv

/-- C8: registry identity and miss behavior: whenever get returns an
object, a second get on the resulting mapping returns the identical object
without invoking the creator; and on a miss the creator is invoked exactly
once with the identifier and the extra arguments (its first invocation
succeeding), and its result is stored under the identifier and
returned. -/
theorem registry_get_identity {κ α β : Type} [DecidableEq κ]
    (creator : Nat → κ → β → Except PyExc α) (st : List (κ × α)) (ident : κ)
    (args : β) :
    (∀ v, (regGet creator st ident args).result = .ok v →
        (regGet creator (regGet creator st ident args).state ident
            args).result = .ok v ∧
        (regGet creator (regGet creator st ident args).state ident
            args).creatorCalls = 0) ∧
    (∀ v, regLookup st ident = none → creator 0 ident args = .ok v →
        (regGet creator st ident args).result = .ok v ∧
        (regGet creator st ident args).creatorCalls = 1 ∧
        (regGet creator st ident args).state = st ++ [(ident, v)]) := by
  refine ⟨?_, ?_⟩
  · intro v hv
    have hs := regGet_ok_state creator st ident args v hv
    generalize hgen : (regGet creator st ident args).state = st2 at hs ⊢
    constructor <;> simp [regGet, hs]
  · intro v hl hc0
    refine ⟨?_, ?_, ?_⟩ <;> simp [regGet, sync_get, hl, hc0]

/-- Witness for the registry identity theorem: a miss on the empty mapping
creates the object once, stores it, and a second get returns the identical
object without invoking the creator again. -/
theorem registry_get_identity_witness :
    (regGet regCreatorOk [] 3 4).result = .ok 304 ∧
    (regGet regCreatorOk [] 3 4).creatorCalls = 1 ∧
    (regGet regCreatorOk (regGet regCreatorOk [] 3 4).state 3 4).result
        = .ok 304 ∧
    (regGet regCreatorOk (regGet regCreatorOk [] 3 4).state 3 4).creatorCalls
        = 0 :=
  ⟨((registry_get_identity regCreatorOk [] 3 4).2 304 rfl rfl).1,
   ((registry_get_identity regCreatorOk [] 3 4).2 304 rfl rfl).2.1,
   ((registry_get_identity regCreatorOk [] 3 4).1 304 rfl).1,
   ((registry_get_identity regCreatorOk [] 3 4).1 304 rfl).2⟩

/-- C9 counterexample: the claim as stated is false on the code.  On the
empty mapping, a creator whose first invocation raises KeyError and whose
retry succeeds with 77 makes _sync_get return 77 and insert an entry: the
except KeyError handler of _sync_get (nameregistry.py lines 57-59) catches
the first exception and re-invokes the creator, so the exception does not
propagate, an entry is inserted, and the creator runs twice. -/
theorem registry_keyerror_caught_counterexample :
    regCreatorRetry 0 5 6 = .error .keyError ∧
    sync_get regCreatorRetry [] 5 6 =
      ⟨.ok 77, [(5, 77)], 2,
        [.regAcquire, .creatorCall, .creatorCall, .regRelease]⟩ :=
  ⟨rfl, rfl⟩

/-- C9 amended: on a miss, a creator exception other than KeyError
propagates unchanged out of _sync_get with the mapping unchanged (insertion
happens only after a creator invocation returns successfully) and the
registry mutex release as the final event; a KeyError from the first
creator invocation is instead caught and the creator re-invoked once, and
when that retry also raises, the retry exception propagates unchanged,
again with the mapping unchanged and the mutex release as the final
event. -/
theorem registry_creator_failure {κ α β : Type} [DecidableEq κ]
    (creator : Nat → κ → β → Except PyExc α) (st : List (κ × α)) (ident : κ)
    (args : β) (hmiss : regLookup st ident = none) :
    (∀ exc, creator 0 ident args = .error exc → exc ≠ .keyError →
        sync_get creator st ident args =
          ⟨.error exc, st, 1, [.regAcquire, .creatorCall, .regRelease]⟩) ∧
    (∀ exc, creator 0 ident args = .error .keyError →
        creator 1 ident args = .error exc →
        sync_get creator st ident args =
          ⟨.error exc, st, 2,
            [.regAcquire, .creatorCall, .creatorCall, .regRelease]⟩) := by
  refine ⟨?_, ?_⟩
  · intro exc hc0 hne
    cases exc with
    | keyError => exact absurd rfl hne
    | needRegeneration => simp [sync_get, hmiss, hc0]
    | exception msg => simp [sync_get, hmiss, hc0]
    | other code => simp [sync_get, hmiss, hc0]
  · intro exc hc0 hc1
    simp [sync_get, hmiss, hc0, hc1]

/-- Witness for the amended creator-failure theorem: the always-raising
creator propagates its non-KeyError exception after one invocation, and a
creator whose first invocation raises KeyError and whose retry raises too
propagates the retry exception after two invocations. -/
theorem registry_creator_failure_witness :
    sync_get regCreatorFail [] 5 6 =
      ⟨.error (.other 3), [], 1, [.regAcquire, .creatorCall, .regRelease]⟩ :=
  (registry_creator_failure regCreatorFail [] 5 6 rfl).1 (.other 3) rfl
    (by simp)

/-- C10: when the initial probe raises NeedRegenerationException,
_enter_create of -1 never returns NOT_REGENERATED: it returns the
under-lock pair from the re-probe when that is fresh and the outcome of the creator
when the re-probe raises NeedRegenerationException or reports a stale
value; the whole entry performs exactly two probe calls, so the fallback
branch of _enter that would call the probe a third time (and could raise
the hard error) is never executed. -/
theorem fallback_branch_unreachable {α : Type} (e : Env α)
    (h : e.probe 0 = .error .needRegeneration) :
    ((enter_create e 1 (-1)).1 ≠ .notRegenerated) ∧
    (∀ v t2, e.probe 1 = .ok (v, t2) → is_expired e t2 = false →
        (enter_create e 1 (-1)).1 = .generated v t2) ∧
    ((e.probe 1 = .error .needRegeneration ∨
        (∃ v t2, e.probe 1 = .ok (v, t2) ∧ is_expired e t2 = true)) →
      (enter_create e 1 (-1)).1 = creatorResult e) ∧
    ((enter e).2.count Event.probeCall = 2) := by
  have hhv : has_value (-1 : Rat) = false := by
    simp [has_value]
  have hie : is_expired e (-1 : Rat) = true := by
    simp [is_expired, hhv]
  have hec : enter_create e 1 (-1) =
      ((createCritical e 1).1, .blockAcquire :: (createCritical e 1).2.1,
        (createCritical e 1).2.2) := by
    simp [enter_create, hie, hhv]
  refine ⟨?_, ?_, ?_, ?_⟩
  · rw [hec]
    exact createCritical_ne_notRegenerated e 1
  · intro v t2 hp hfresh
    rw [hec]
    simp [createCritical, hp, hfresh]
  · intro hcase
    rw [hec]
    rcases hcase with hp | ⟨v, t2, hp, hstale⟩
    · simp [createCritical, hp]
    · simp [createCritical, hp, hstale]
  · have htail : (enterTail e (createCritical e 1).2.2 none
        (createCritical e 1).1).2.1 = [] :=
      enterTail_trace_of_ne e _ none _ (createCritical_ne_notRegenerated e 1)
    unfold enter
    rw [h]
    simp only [enterFrom, hec]
    simp [htail, List.count_cons, List.count_append,
      createCritical_probe_count e 1]
    decide

/-- Witness for the unreachable-fallback theorem in the concrete cold
environment: the under-lock re-probe finds the fresh pair, and the whole
entry makes exactly two probe calls. -/
theorem fallback_branch_unreachable_witness :
    (enter_create envCold 1 (-1)).1 = .generated 7 9 ∧
    (enter envCold).2.count Event.probeCall = 2 :=
  ⟨(fallback_branch_unreachable envCold rfl).2.1 7 9 rfl
      (by simp [is_expired, has_value, envCold]; norm_num),
    (fallback_branch_unreachable envCold rfl).2.2.2⟩

end DogpileCore
